import Mathlib

/-!
# Verification of the page-image comparison core (`src/comparator.py`)

Shallow embedding of the similarity engine of the `pdf-parser` repository.
The embedded code is `src/comparator.py`: the `PageComparator` preprocessing
and SSIM estimator, the four module-level estimator functions, and the
top-level `compare_images` aggregator.  External capabilities (PIL resizing,
OpenCV resizing, the AKAZE detector, the OCR engine, the skimage SSIM
routine) are parameters of the embedding; everything the repository itself
computes is embedded as executable Lean definitions.

Machine floats are modelled by `ℚ` (and by `ℝ` where the histogram
correlation takes a square root); 8-bit pixel intensities by `ℕ`.
-/

/-- Python exception values that can arise in `comparator.py`. -/
inductive PyErr where
  | nameError (n : String)
  | typeError (msg : String)
  | otherError (msg : String)
deriving DecidableEq

/-- A PIL grayscale (mode `'L'`) image: its pixel dimensions plus the
intensity function (row, column ↦ 8-bit intensity).
`PageComparator.__init__` (comparator.py lines 10-12) converts any input to
mode `'L'` before further use, so the embedding works with grayscale images
throughout; the conversion does not change the pixel dimensions. -/
structure GrayImage where
  width : Nat
  height : Nat
  px : Nat → Nat → Nat

/-- A 2-D numpy intensity matrix; `np.array` of a grayscale PIL image has
shape `(rows, cols) = (height, width)`. -/
structure Mat where
  rows : Nat
  cols : Nat
  px : Nat → Nat → Nat

/-- `np.array(img)` for a grayscale PIL image (comparator.py line 21). -/
def GrayImage.toMat (i : GrayImage) : Mat := ⟨i.height, i.width, i.px⟩

/-- `int(np.mean([a, b]))` for two image side lengths (comparator.py
line 18).  `np.mean` computes `(a + b) / 2` exactly in double precision for
any realistic image dimension, and Python's `int(...)` truncates toward
zero; for a nonnegative value truncation is the floor, which on `ℕ` is
natural-number division by 2. -/
def pyIntMean (a b : Nat) : Nat := (a + b) / 2

/-- `PageComparator.preprocess_images_for_comparison` (comparator.py lines
15-21).  `subject.size` is the PIL `(width, height)` pair; when the two
sizes differ, both images are resized to the elementwise `int(np.mean(...))`
of the two sizes, and finally both are converted to numpy matrices.
`resize` is PIL's `Image.resize`, an external capability taking a
`(width, height)` target. -/
def preprocess_images_for_comparison (resize : GrayImage → Nat × Nat → GrayImage)
    (subject obj : GrayImage) : Mat × Mat :=
  if (subject.width, subject.height) = (obj.width, obj.height) then
    (subject.toMat, obj.toMat)
  else
    let meanDims := (pyIntMean subject.width obj.width, pyIntMean subject.height obj.height)
    ((resize subject meanDims).toMat, (resize obj meanDims).toMat)

/-- A Python value as the skimage `structural_similarity` call can yield it:
a numeric score, a tuple/list (the code defensively handles the `full=True`
return shape), or some other object. -/
inductive PyVal where
  | num (q : ℚ)
  | seq (l : List PyVal)
  | other

/-- Python `float(x)` (comparator.py line 38): succeeds on a numeric value
and raises `TypeError` on a tuple/list or other non-numeric object. -/
def pyFloat : PyVal → Except PyErr ℚ
  | .num q => .ok q
  | .seq _ => .error (.typeError "float() argument must be a number")
  | .other => .error (.typeError "float() argument must be a number")

/-- The `try:` block of `PageComparator.calculate_ssim_similarity`
(comparator.py lines 29-39): call the external SSIM routine, take the first
element when a tuple/list came back (`0.0` when it is empty), convert to
float, and clamp below by `0.0`.  Any raised exception propagates to the
handler in `calculate_ssim_similarity`. -/
def ssimTryBody (ssimF : Mat → Mat → Except PyErr PyVal) (a b : Mat) :
    Except PyErr ℚ :=
  match ssimF a b with
  | .error e => .error e
  | .ok s0 =>
    let s1 := match s0 with
      | .seq l => if 0 < l.length then l.headD .other else .num 0
      | v => v
    match pyFloat s1 with
    | .error e => .error e
    | .ok q => .ok (max 0 q)

/-- `PageComparator.calculate_ssim_similarity` (comparator.py lines 23-42):
the `try:` body with the `except Exception: return 0.0` handler
(lines 40-42).  `ssimF` is the external skimage routine applied to the two
preprocessed matrices held by the comparator. -/
def calculate_ssim_similarity (ssimF : Mat → Mat → Except PyErr PyVal)
    (a b : Mat) : ℚ :=
  match ssimTryBody ssimF a b with
  | .ok v => v
  | .error _ => 0

/-- `cv2.calcHist([img], [0], None, [256], [0, 256])` for an 8-bit grayscale
matrix (comparator.py lines 59-60): bin `v` holds the number of pixels with
intensity `v`; 8-bit entries always fall inside the 256 bins. -/
def calcHist (m : Mat) (v : Nat) : ℚ :=
  (((Finset.range m.rows) ×ˢ (Finset.range m.cols)).filter
     (fun rc => m.px rc.1 rc.2 = v)).card

/-- Total mass of a 256-bin histogram (`hist.sum()`, comparator.py
lines 63-64). -/
def histTotal (m : Mat) : ℚ := (Finset.range 256).sum (calcHist m)

/-- The normalized histogram `hist / hist.sum()` (comparator.py
lines 63-64). -/
def normHist (m : Mat) (v : Nat) : ℚ := calcHist m v / histTotal m

/-- Mean of a 256-bin histogram, as used by the correlation method of
`cv2.compareHist`. -/
def binMean (h : Nat → ℚ) : ℚ := (Finset.range 256).sum h / 256

/-- Cross term of the correlation: `Σ (h1 i - mean h1) * (h2 i - mean h2)`. -/
def corrNum (h1 h2 : Nat → ℚ) : ℚ :=
  (Finset.range 256).sum (fun i => (h1 i - binMean h1) * (h2 i - binMean h2))

/-- Squared deviation of a histogram: `Σ (h i - mean h) ^ 2`. -/
def corrDev (h : Nat → ℚ) : ℚ :=
  (Finset.range 256).sum (fun i => (h i - binMean h) ^ 2)

/-- `cv2.compareHist(h1, h2, cv2.HISTCMP_CORREL)` (comparator.py line 67).
OpenCV computes the sample correlation coefficient
`num / sqrt(dev1 * dev2)` and returns `1` when the denominator vanishes
(its guard reads `abs(denom2) > DBL_EPSILON ? num / sqrt(denom2) : 1.`);
the exact-arithmetic model tests the denominator against zero. -/
noncomputable def compareHistCorrel (h1 h2 : Nat → ℚ) : ℝ :=
  if corrDev h1 * corrDev h2 = 0 then 1
  else (corrNum h1 h2 : ℝ) / Real.sqrt ((corrDev h1 * corrDev h2 : ℚ) : ℝ)

/-- `calculate_histogram_similarity` (comparator.py lines 47-70): normalize
the two 256-bin histograms, correlate them, map the coefficient by
`(r + 1) / 2` and clamp to `[0, 1]` (line 70). -/
noncomputable def calculate_histogram_similarity (a b : Mat) : ℝ :=
  max 0 (min 1 ((compareHistCorrel (normHist a) (normHist b) + 1) / 2))

/-- An AKAZE binary descriptor, as its bit string; `cv2.NORM_HAMMING`
distances count differing bits. -/
abbrev Desc := List Bool

/-- Hamming distance between two equal-length binary descriptors. -/
def hamming (a b : Desc) : Nat := (List.zipWith (fun x y => x != y) a b).count true

/-- The index of the nearest descriptor of `ds` to the query `q` under
Hamming distance, `none` when `ds` is empty.  OpenCV's brute-force matcher
scans candidates in order and replaces the current best only on a strictly
smaller distance, so the first index attaining the minimum is selected;
`List.argmin` breaks ties the same way. -/
def bestIdx (q : Desc) (ds : List Desc) : Option Nat :=
  (List.range ds.length).argmin (fun j => hamming q (ds.getD j []))

/-- Mutual-consistency test of `cv2.BFMatcher(cv2.NORM_HAMMING,
crossCheck=True)`: query index `i` of `d1` is matched exactly when its best
match `j` in `d2` has `i` as its own best match back in `d1`. -/
def crossMatched (d1 d2 : List Desc) (i : Nat) : Bool :=
  match bestIdx (d1.getD i []) d2 with
  | none => false
  | some j => bestIdx (d2.getD j []) d1 == some i

/-- `len(bf.match(des1, des2))` with cross-checking (comparator.py
lines 96-99): the number of mutually-consistent best-match pairs.  Only this
count is observable in `calculate_orb_similarity`. -/
def bfMatchCount (d1 d2 : List Desc) : Nat :=
  ((List.range d1.length).filter (crossMatched d1 d2)).length

/-- Result of `akaze.detectAndCompute(img, None)` (comparator.py
lines 88-89): the number of keypoints `len(kp)` and the descriptor array,
`none` when the detector returns `None`. -/
structure DetectResult where
  kps : Nat
  des : Option (List Desc)

/-- The body of `calculate_orb_similarity` after the two
`detectAndCompute` calls (comparator.py lines 92-111): return `0.0` when
either descriptor set is `None`, match with cross-checking, return `0.0` on
zero matches or a zero keypoint budget, and otherwise
`min(1.0, len(matches) / min(len(kp1), len(kp2)))`. -/
def orbFromDetect (r1 r2 : DetectResult) : ℚ :=
  match r1.des, r2.des with
  | none, _ => 0
  | some _, none => 0
  | some d1, some d2 =>
    let m := bfMatchCount d1 d2
    if m = 0 then 0
    else
      let maxPossible := min r1.kps r2.kps
      if maxPossible = 0 then 0
      else min 1 ((m : ℚ) / (maxPossible : ℚ))

/-- `calculate_orb_similarity` (comparator.py lines 73-111): detect
keypoints and descriptors on both matrices with the external AKAZE
capability, then score the two detection results. -/
def calculate_orb_similarity (detect : Mat → DetectResult) (img1 img2 : Mat) : ℚ :=
  orbFromDetect (detect img1) (detect img2)

/-- Python `str.split()` whitespace classes (space, tab, newline, carriage
return, vertical tab, form feed); OCR output consists of these plus visible
characters. -/
def isPySpace (c : Char) : Bool :=
  c == ' ' || c == '\t' || c == '\n' || c == '\r' || c == '\x0b' || c == '\x0c'

/-- `' '.join(text.split()).lower()` (comparator.py lines 138-139): split on
runs of whitespace discarding empty pieces, rejoin with single spaces, and
lower-case. -/
def pyNormalize (s : String) : String :=
  ⟨(List.intercalate [' ']
      ((s.toList.splitOnP isPySpace).filter (fun w => !w.isEmpty))).map Char.toLower⟩

/-- Equality of the two `hashlib.md5(...).hexdigest()` values (comparator.py
lines 148-152).  MD5 is a deterministic function of the input bytes, so
equal strings always produce equal digests and the code's identity test
succeeds on them; the model identifies digest equality with string equality
(a hash collision between distinct OCR outputs is outside the model). -/
def md5HexDigestEq (a b : String) : Bool := a == b

/-- The set of distinct characters of a string (`set(text)`, comparator.py
lines 157-158). -/
def charSet (s : String) : Finset Char := s.toList.toFinset

/-- The decision core of `calculate_text_similarity` (comparator.py lines
131-171), a pure function of the two OCR output strings: raw-emptiness
checks (lines 132-135), normalization (lines 138-139), normalized-emptiness
checks (lines 142-145), digest identity (lines 148-153), and the
character-set Jaccard ratio with its guards (lines 157-171). -/
def calculate_text_similarity_core (t1 t2 : String) : ℚ :=
  if t1 = "" ∧ t2 = "" then 1
  else if t1 = "" ∨ t2 = "" then 0
  else
    let n1 := pyNormalize t1
    let n2 := pyNormalize t2
    if n1 = "" ∧ n2 = "" then 1
    else if n1 = "" ∨ n2 = "" then 0
    else if md5HexDigestEq n1 n2 then 1
    else
      let s1 := charSet n1
      let s2 := charSet n2
      if s1 = ∅ ∧ s2 = ∅ then 1
      else if s1 = ∅ ∨ s2 = ∅ then 0
      else if (s1 ∪ s2).card = 0 then 1
      else ((s1 ∩ s2).card : ℚ) / ((s1 ∪ s2).card : ℚ)

/-- `calculate_text_similarity` (comparator.py lines 114-175): run the
external OCR capability on both matrices inside the `try:` block (an OCR
failure reaches the `except` handler on lines 173-175 and yields `0.0`),
then apply the pure decision core to the two recognized texts. -/
def calculate_text_similarity (ocrRun : Mat → Except PyErr String)
    (i1 i2 : Mat) : ℚ :=
  match ocrRun i1 with
  | .error _ => 0
  | .ok t1 =>
    match ocrRun i2 with
    | .error _ => 0
    | .ok t2 => calculate_text_similarity_core t1 t2

/-- `np.mean(cv2.absdiff(img1, img2))` for two matrices of the shape of the
first argument (comparator.py lines 197-200): the mean absolute per-pixel
difference; `cv2.absdiff` on 8-bit data is the exact absolute difference. -/
def absdiffMean (a b : Mat) : ℚ :=
  (((Finset.range a.rows) ×ˢ (Finset.range a.cols)).sum
      (fun rc => ((max (a.px rc.1 rc.2) (b.px rc.1 rc.2)
                   - min (a.px rc.1 rc.2) (b.px rc.1 rc.2) : Nat) : ℚ)))
    / ((a.rows * a.cols : Nat) : ℚ)

/-- `calculate_pixel_similarity` (comparator.py lines 178-203): when the two
shapes differ, resize both to the minimum common height and width with the
external `cv2.resize` capability (whose target argument is
`(width, height)`), then return `max(0.0, 1 - mean(absdiff) / 255)`. -/
def calculate_pixel_similarity (resizeMat : Mat → Nat × Nat → Mat)
    (img1 img2 : Mat) : ℚ :=
  let p :=
    if (img1.rows, img1.cols) = (img2.rows, img2.cols) then (img1, img2)
    else
      let minH := min img1.rows img2.rows
      let minW := min img1.cols img2.cols
      (resizeMat img1 (minW, minH), resizeMat img2 (minW, minH))
  max 0 (1 - absdiffMean p.1 p.2 / 255)

/-- The global names bound at module level in `src/comparator.py` once the
module has executed: the six imports (lines 1-6), the class `PageComparator`
(line 9) and the four module-level functions (lines 47, 73, 114, 178) plus
`compare_images` itself (line 206).  `calculate_ssim_similarity` is an
attribute of the class (line 23), not a module global, and no
`preprocess_image_for_comparison` is defined anywhere in the module (the
method on line 15 is named `preprocess_images_for_comparison` and lives in
the class namespace). -/
def comparatorModuleGlobals : List String :=
  ["cv2", "np", "Image", "pytesseract", "ssim", "hashlib",
   "PageComparator",
   "calculate_histogram_similarity", "calculate_orb_similarity",
   "calculate_text_similarity", "calculate_pixel_similarity",
   "compare_images"]

/-- Python resolution of a free (global) name inside a function body: the
name is looked up in the module's global namespace at call time and a
`NameError` is raised when it is absent. -/
def resolveGlobal (n : String) : Except PyErr Unit :=
  if n ∈ comparatorModuleGlobals then .ok () else .error (.nameError n)

/-- Sequencing of one global-name resolution before the rest of a statement
list: a failed lookup raises and the continuation never runs, exactly like
Python's exception propagation. -/
def requireGlobal (n : String) (k : Except PyErr ℚ) : Except PyErr ℚ :=
  match resolveGlobal n with
  | .error e => .error e
  | .ok _ => k

/-- The external capabilities the comparison pipeline consumes: PIL
`Image.resize`, `cv2.resize`, the AKAZE detector, the OCR engine, and the
skimage SSIM routine. -/
structure ExternEnv where
  resizeImg : GrayImage → Nat × Nat → GrayImage
  resizeMat : Mat → Nat × Nat → Mat
  detect : Mat → DetectResult
  ocrRun : Mat → Except PyErr String
  ssimF : Mat → Mat → Except PyErr PyVal

/-- The `try:` block of `compare_images` (comparator.py lines 219-245), as a
fallible computation.  Each call statement of the block begins by resolving
its callee's free name, in the order the statements execute.  Line 221
evaluates `preprocess_image_for_comparison(subject)`; the module binds no
such global (see `comparatorModuleGlobals`), so the lookup raises
`NameError` before any preprocessing or estimator code runs, and no later
statement of the block executes — the `Except` short-circuiting reproduces
this exactly, which is why the tail after the last resolution is
unreachable.  The weighted aggregation that the unreachable tail of the
block describes (lines 236-245) is embedded separately as
`compare_images_spec` for comparison with the specification. -/
def compare_images_tryBody (_env : ExternEnv) (_subject _obj : GrayImage) :
    Except PyErr ℚ :=
  requireGlobal "preprocess_image_for_comparison" <|
  requireGlobal "preprocess_image_for_comparison" <|
  requireGlobal "calculate_ssim_similarity" <|
  requireGlobal "calculate_histogram_similarity" <|
  requireGlobal "calculate_orb_similarity" <|
  requireGlobal "calculate_text_similarity" <|
  requireGlobal "calculate_pixel_similarity" <|
  Except.error (PyErr.otherError "line 224 is unreachable: line 221 raised")

/-- `compare_images` (comparator.py lines 206-250): the `try:` body wrapped
in the `except Exception` handler that prints a diagnostic and returns
`0.0` (lines 247-250). -/
def compare_images (env : ExternEnv) (subject obj : GrayImage) : ℚ :=
  match compare_images_tryBody env subject obj with
  | .ok v => v
  | .error _ => 0

/-- Modelled from the spec: the comparison pipeline that §4.7 of the
specification prescribes and the docstring of `compare_images` describes —
preprocess the pair once, run the five estimators on the preprocessed
matrices, combine the five scores with the fixed weight table
`0.35 / 0.25 / 0.15 / 0.15 / 0.10`, and clamp the sum to `[0, 1]`.
`src/comparator.py` contains no reachable implementation of this pipeline
(see `compare_images_tryBody`), so this definition follows the spec's words;
it exists solely as the comparison point for claims about the intended
behavior. -/
noncomputable def compare_images_spec (env : ExternEnv) (subject obj : GrayImage) : ℝ :=
  let p := preprocess_images_for_comparison env.resizeImg subject obj
  let ssimScore := calculate_ssim_similarity env.ssimF p.1 p.2
  let histScore := calculate_histogram_similarity p.1 p.2
  let orbScore := calculate_orb_similarity env.detect p.1 p.2
  let textScore := calculate_text_similarity env.ocrRun p.1 p.2
  let pixelScore := calculate_pixel_similarity env.resizeMat p.1 p.2
  max 0 (min 1 ((ssimScore : ℝ) * 0.35 + histScore * 0.25 + (orbScore : ℝ) * 0.15
      + (textScore : ℝ) * 0.15 + (pixelScore : ℝ) * 0.10))

/-- A PIL-style resize witness: returns a blank image of exactly the
requested `(width, height)` — the only property of `Image.resize` the
theorems rely on. -/
def resizeImgW : GrayImage → Nat × Nat → GrayImage :=
  fun _ wh => ⟨wh.1, wh.2, fun _ _ => 0⟩

/-- A `cv2.resize`-style witness: returns a blank matrix of exactly the
requested `(width, height)` target, i.e. of shape `(height, width)`. -/
def resizeMatW : Mat → Nat × Nat → Mat :=
  fun _ wh => ⟨wh.2, wh.1, fun _ _ => 0⟩

/-- A concrete external environment: resizers honoring their targets, a
detector finding no features, an OCR engine reading no text, and an SSIM
routine scoring `1` — the behavior all of these have on uniform images. -/
def envW : ExternEnv where
  resizeImg := resizeImgW
  resizeMat := resizeMatW
  detect := fun _ => ⟨0, none⟩
  ocrRun := fun _ => .ok ""
  ssimF := fun _ _ => .ok (.num 1)

/-- A uniform grayscale image of the given dimensions and intensity. -/
def uniformImage (w h v : Nat) : GrayImage := ⟨w, h, fun _ _ => v⟩

/-- `"preprocess_image_for_comparison"` is not a module global of
`comparator.py`. -/
theorem preprocess_name_unbound :
    ("preprocess_image_for_comparison" ∈ comparatorModuleGlobals) = False := by
  decide

/-- The first statement of the `try:` block of `compare_images` raises
`NameError`, so the whole block evaluates to that exception, independently
of the environment and of both input images. -/
theorem compare_images_tryBody_eq (env : ExternEnv) (a b : GrayImage) :
    compare_images_tryBody env a b =
      .error (.nameError "preprocess_image_for_comparison") := by
  rfl

/-- The `except` handler of `compare_images` converts the `NameError` into
the return value `0.0`, for every environment and every pair of images. -/
theorem compare_images_eq_zero (env : ExternEnv) (a b : GrayImage) :
    compare_images env a b = 0 := by
  rfl

/-- Claim C1: the claim states that `compare(I, I) ≥ 0.80` for every valid
input image `I`.  The code violates it: the `try:` block of `compare_images`
calls the undefined name `preprocess_image_for_comparison`, the resulting
`NameError` reaches the top-level handler, and the call returns `0.0 < 0.80`
— here evaluated at the spec's own scenario, two identical 200×200 uniform
gray-128 images. -/
theorem claim_C1_compare_self_scores_zero :
    compare_images envW (uniformImage 200 200 128) (uniformImage 200 200 128) = 0 ∧
    ¬ ((0.80 : ℚ) ≤
        compare_images envW (uniformImage 200 200 128) (uniformImage 200 200 128)) := by
  refine ⟨compare_images_eq_zero _ _ _, ?_⟩
  rw [compare_images_eq_zero]
  norm_num

/-- Claim C2: for every environment and every pair of well-formed images,
`compare_images` returns a value in `[0, 1]`, and whenever the `try:` block
raises, the exception is absorbed at the outermost boundary and the call
returns `0.0` instead of propagating. -/
theorem claim_C2_compare_bounded_and_contained (env : ExternEnv) (a b : GrayImage) :
    (0 ≤ compare_images env a b ∧ compare_images env a b ≤ 1) ∧
    (∀ e : PyErr, compare_images_tryBody env a b = .error e →
      compare_images env a b = 0) := by
  refine ⟨?_, fun e _ => compare_images_eq_zero env a b⟩
  rw [compare_images_eq_zero]
  norm_num

/-- Witness for claim C2 at a concrete environment and concrete images of
different sizes. -/
theorem claim_C2_witness :
    (0 ≤ compare_images envW (uniformImage 1 1 0) (uniformImage 2 3 5) ∧
      compare_images envW (uniformImage 1 1 0) (uniformImage 2 3 5) ≤ 1) ∧
    (∀ e : PyErr,
      compare_images_tryBody envW (uniformImage 1 1 0) (uniformImage 2 3 5) = .error e →
      compare_images envW (uniformImage 1 1 0) (uniformImage 2 3 5) = 0) :=
  claim_C2_compare_bounded_and_contained envW (uniformImage 1 1 0) (uniformImage 2 3 5)

/-- Claim C3: for every environment and every pair of input images, the
top-level `compare_images` returns exactly `0.0` — its `try:` block always
raises `NameError` on the unbound callee of its first statement, and the
handler maps the exception to `0.0`. -/
theorem claim_C3_compare_always_zero (env : ExternEnv) (a b : GrayImage) :
    compare_images env a b = 0 :=
  compare_images_eq_zero env a b

/-- Counterexample to claim C5: the claim states the resize target width is
`round(mean(width_a, width_b))`, but the code computes
`int(np.mean(...))`, which truncates.  For widths 100 and 203 the mean is
151.5: the code produces 151 while the claimed rounding gives 152. -/
theorem claim_C5_counterexample :
    (preprocess_images_for_comparison resizeImgW
        (uniformImage 100 100 0) (uniformImage 203 100 0)).1.cols = 151 ∧
    round ((100 + 203 : ℚ) / 2) = 152 ∧
    (151 : ℤ) ≠ 152 := by
  refine ⟨rfl, ?_, by decide⟩
  norm_num [round_eq]

/-- Claim C5 as amended: when the two images' pixel dimensions differ, both
are resized to a common target whose width is the floor of the mean width
`⌊(width_a + width_b) / 2⌋` (the truncation that `int(np.mean(...))`
performs) and whose height is the floor of the mean height; when the
dimensions already match, no resize occurs; in every case the two output
matrices have identical shape.  `hres` is the PIL guarantee that
`Image.resize` returns an image of exactly the requested size. -/
theorem claim_C5_amended_preprocess (resize : GrayImage → Nat × Nat → GrayImage)
    (s o : GrayImage)
    (hres : ∀ i wh, (resize i wh).width = wh.1 ∧ (resize i wh).height = wh.2) :
    ((preprocess_images_for_comparison resize s o).1.rows =
        (preprocess_images_for_comparison resize s o).2.rows ∧
      (preprocess_images_for_comparison resize s o).1.cols =
        (preprocess_images_for_comparison resize s o).2.cols) ∧
    ((s.width, s.height) = (o.width, o.height) →
      preprocess_images_for_comparison resize s o = (s.toMat, o.toMat)) ∧
    ((s.width, s.height) ≠ (o.width, o.height) →
      (preprocess_images_for_comparison resize s o).1.cols = (s.width + o.width) / 2 ∧
      (preprocess_images_for_comparison resize s o).1.rows = (s.height + o.height) / 2 ∧
      (preprocess_images_for_comparison resize s o).2.cols = (s.width + o.width) / 2 ∧
      (preprocess_images_for_comparison resize s o).2.rows = (s.height + o.height) / 2) := by
  by_cases h : (s.width, s.height) = (o.width, o.height)
  · have hw : s.width = o.width := congrArg Prod.fst h
    have hh : s.height = o.height := congrArg Prod.snd h
    have hp : preprocess_images_for_comparison resize s o = (s.toMat, o.toMat) := by
      simp only [preprocess_images_for_comparison, if_pos h]
    refine ⟨?_, fun _ => hp, fun hne => absurd h hne⟩
    rw [hp]
    exact ⟨hh, hw⟩
  · obtain ⟨h1w, h1h⟩ := hres s (pyIntMean s.width o.width, pyIntMean s.height o.height)
    obtain ⟨h2w, h2h⟩ := hres o (pyIntMean s.width o.width, pyIntMean s.height o.height)
    simp only [preprocess_images_for_comparison, if_neg h, GrayImage.toMat]
    exact ⟨⟨h1h.trans h2h.symm, h1w.trans h2w.symm⟩, fun hc => absurd hc h,
      fun _ => ⟨h1w, h1h, h2w, h2h⟩⟩

/-- Witness for the amended claim C5 at concrete images of sizes 4×6 and
9×6 and a resize capability honoring its target: the common target width is
`⌊(4 + 9) / 2⌋ = 6` and the two output shapes agree. -/
theorem claim_C5_witness :
    (preprocess_images_for_comparison resizeImgW
        (uniformImage 4 6 7) (uniformImage 9 6 2)).1.cols = 6 ∧
    (preprocess_images_for_comparison resizeImgW
        (uniformImage 4 6 7) (uniformImage 9 6 2)).1.rows =
      (preprocess_images_for_comparison resizeImgW
        (uniformImage 4 6 7) (uniformImage 9 6 2)).2.rows := by
  have h := claim_C5_amended_preprocess resizeImgW
      (uniformImage 4 6 7) (uniformImage 9 6 2) (fun i wh => ⟨rfl, rfl⟩)
  refine ⟨?_, h.1.1⟩
  rw [(h.2.2 (by decide)).1]
  rfl

/-- The decision table exactly as claim C4 states it, applied to the
normalized texts only: both normalized texts empty → `1.0`; exactly one
empty → `0.0`; identical → `1.0`; otherwise the Jaccard ratio of the unique
character sets.  This definition follows the claim's words and exists for
comparison with the embedded code. -/
def claimedTextTable (t1 t2 : String) : ℚ :=
  let n1 := pyNormalize t1
  let n2 := pyNormalize t2
  if n1 = "" ∧ n2 = "" then 1
  else if n1 = "" ∨ n2 = "" then 0
  else if n1 = n2 then 1
  else ((charSet n1 ∩ charSet n2).card : ℚ) / ((charSet n1 ∪ charSet n2).card : ℚ)

/-- Claim C4 as amended: the estimator first applies the emptiness checks to
the raw OCR outputs (both raw-empty → `1.0`, exactly one raw-empty → `0.0`)
and only then applies the claimed decision table to the normalized texts. -/
def amendedTextTable (t1 t2 : String) : ℚ :=
  if t1 = "" ∧ t2 = "" then 1
  else if t1 = "" ∨ t2 = "" then 0
  else claimedTextTable t1 t2

/-- A nonempty string has a nonempty set of distinct characters. -/
theorem charSet_nonempty {s : String} (h : s ≠ "") : (charSet s).Nonempty := by
  rw [Finset.nonempty_iff_ne_empty]
  intro hempty
  apply h
  have hlist : s.toList = [] := by
    rwa [charSet, List.toFinset_eq_empty_iff] at hempty
  cases s with
  | mk data =>
    cases hlist
    rfl

/-- Counterexample to claim C4: on the OCR output pair `("", " ")` both
normalized texts are empty, so the claimed table yields `1.0`, but the code
tests raw emptiness before normalizing (comparator.py lines 132-135) and
returns `0.0` because exactly one raw text is empty. -/
theorem claim_C4_counterexample :
    calculate_text_similarity_core "" " " = 0 ∧
    claimedTextTable "" " " = 1 ∧
    calculate_text_similarity_core "" " " ≠ claimedTextTable "" " " := by
  refine ⟨?_, ?_, ?_⟩ <;> decide

/-- Claim C4 as amended: for every pair of OCR outputs, the text-similarity
decision core returns the raw-emptiness checks first and then the claimed
normalized-text decision table (both normalized empty → `1.0`, one empty →
`0.0`, identical → `1.0`, otherwise the character-set Jaccard ratio). -/
theorem claim_C4_amended_table (t1 t2 : String) :
    calculate_text_similarity_core t1 t2 = amendedTextTable t1 t2 := by
  unfold calculate_text_similarity_core amendedTextTable claimedTextTable
  by_cases h12 : t1 = "" ∧ t2 = ""
  · rw [if_pos h12, if_pos h12]
  · rw [if_neg h12, if_neg h12]
    by_cases h1 : t1 = "" ∨ t2 = ""
    · rw [if_pos h1, if_pos h1]
    · rw [if_neg h1, if_neg h1]
      by_cases hn12 : pyNormalize t1 = "" ∧ pyNormalize t2 = ""
      · rw [if_pos hn12, if_pos hn12]
      · rw [if_neg hn12, if_neg hn12]
        by_cases hn : pyNormalize t1 = "" ∨ pyNormalize t2 = ""
        · rw [if_pos hn, if_pos hn]
        · rw [if_neg hn, if_neg hn]
          push_neg at hn
          obtain ⟨hn1, hn2⟩ := hn
          by_cases heq : pyNormalize t1 = pyNormalize t2
          · have hb : md5HexDigestEq (pyNormalize t1) (pyNormalize t2) = true := by
              rw [md5HexDigestEq, beq_iff_eq]
              exact heq
            rw [if_pos hb, if_pos heq]
          · have hb : ¬ md5HexDigestEq (pyNormalize t1) (pyNormalize t2) = true := by
              rw [md5HexDigestEq, beq_iff_eq]
              exact heq
            rw [if_neg hb, if_neg heq]
            have hs1 := charSet_nonempty hn1
            have hs2 := charSet_nonempty hn2
            have hu : (charSet (pyNormalize t1) ∪ charSet (pyNormalize t2)).Nonempty :=
              hs1.mono Finset.subset_union_left
            rw [if_neg (fun hc => Finset.nonempty_iff_ne_empty.mp hs1 hc.1),
                if_neg ?_, if_neg (Finset.card_pos.mpr hu).ne']
            rintro (hc | hc)
            · exact Finset.nonempty_iff_ne_empty.mp hs1 hc
            · exact Finset.nonempty_iff_ne_empty.mp hs2 hc

/-- A nonzero cross-checked match count forces both descriptor lists to be
nonempty: every accepted match is a query index of `d1` whose best-match
lookup into `d2` succeeded. -/
theorem bfMatchCount_pos (d1 d2 : List Desc) (h : bfMatchCount d1 d2 ≠ 0) :
    0 < d1.length ∧ 0 < d2.length := by
  rw [bfMatchCount] at h
  have hne : (List.range d1.length).filter (crossMatched d1 d2) ≠ [] := by
    intro hnil
    rw [hnil] at h
    exact h rfl
  obtain ⟨i, hi⟩ := List.exists_mem_of_ne_nil _ hne
  have hmem := List.mem_filter.mp hi
  have hrange := List.mem_range.mp hmem.1
  have hcm : crossMatched d1 d2 i = true := hmem.2
  refine ⟨Nat.pos_of_ne_zero (fun h0 => by rw [h0] at hrange; exact Nat.not_lt_zero i hrange), ?_⟩
  rw [crossMatched] at hcm
  cases hb : bestIdx (d1.getD i []) d2 with
  | none =>
    rw [hb] at hcm
    exact absurd hcm (by simp)
  | some j =>
    by_contra h2
    push_neg at h2
    have hd2 : d2.length = 0 := Nat.le_zero.mp h2
    rw [bestIdx, hd2] at hb
    simp [List.argmin_nil] at hb

/-- The feature-match score exactly as claim C6 states it: `0.0` when either
image yields no descriptors, `0.0` when the accepted-match count `m` is
zero, and otherwise `min(1, m / min(kp1, kp2))`. -/
def orbSpecScore (des1 des2 : Option (List Desc)) (kp1 kp2 m : Nat) : ℚ :=
  if des1 = none ∨ des2 = none then 0
  else if m = 0 then 0
  else min 1 ((m : ℚ) / ((min kp1 kp2 : Nat) : ℚ))

/-- Claim C6: for every detector capability whose keypoint count agrees with
its descriptor count (the invariant of `detectAndCompute`), the embedded
`calculate_orb_similarity` computes exactly the claimed case analysis — the
internal zero-keypoint-budget branch of the code is unreachable, because a
positive match count forces both descriptor lists, and hence both keypoint
budgets, to be positive. -/
theorem claim_C6_orb_matches_spec (detect : Mat → DetectResult) (img1 img2 : Mat)
    (h1 : ∀ l, (detect img1).des = some l → (detect img1).kps = l.length)
    (h2 : ∀ l, (detect img2).des = some l → (detect img2).kps = l.length) :
    calculate_orb_similarity detect img1 img2 =
      orbSpecScore (detect img1).des (detect img2).des
        (detect img1).kps (detect img2).kps
        (bfMatchCount ((detect img1).des.getD []) ((detect img2).des.getD [])) := by
  unfold calculate_orb_similarity
  revert h1 h2
  generalize detect img1 = r1
  generalize detect img2 = r2
  intro h1 h2
  cases r1 with
  | mk k1 des1 =>
    cases r2 with
    | mk k2 des2 =>
      cases des1 with
      | none => simp [orbFromDetect, orbSpecScore]
      | some d1 =>
        cases des2 with
        | none => simp [orbFromDetect, orbSpecScore]
        | some d2 =>
          simp only [orbFromDetect, orbSpecScore, Option.getD_some]
          by_cases hm : bfMatchCount d1 d2 = 0
          · simp [hm]
          · obtain ⟨hl1, hl2⟩ := bfMatchCount_pos d1 d2 hm
            have hk1 : k1 = d1.length := h1 d1 rfl
            have hk2 : k2 = d2.length := h2 d2 rfl
            have hmin : ¬ min k1 k2 = 0 := by omega
            simp [hm, hmin]

/-- A detector witness: one keypoint with one two-bit descriptor on every
matrix. -/
def detectW : Mat → DetectResult := fun _ => ⟨1, some [[true, false]]⟩

/-- A concrete 1×1 matrix. -/
def matW : Mat := ⟨1, 1, fun _ _ => 128⟩

/-- Witness for claim C6 at the concrete detector `detectW`: the single
descriptor matches itself mutually, and the score is
`min(1, 1 / min(1, 1)) = 1`. -/
theorem claim_C6_witness :
    calculate_orb_similarity detectW matW matW =
      orbSpecScore (detectW matW).des (detectW matW).des
        (detectW matW).kps (detectW matW).kps
        (bfMatchCount ((detectW matW).des.getD []) ((detectW matW).des.getD [])) ∧
    calculate_orb_similarity detectW matW matW = 1 := by
  refine ⟨claim_C6_orb_matches_spec detectW matW matW ?_ ?_, ?_⟩
  · intro l hl
    rw [← Option.some.inj hl]
    rfl
  · intro l hl
    rw [← Option.some.inj hl]
    rfl
  · show orbFromDetect (detectW matW) (detectW matW) = 1
    have hm : bfMatchCount [[true, false]] [[true, false]] = 1 := by decide
    simp [orbFromDetect, detectW, hm]

/-- The correlation cross term of a histogram with itself is its squared
deviation. -/
theorem corrNum_self (h : Nat → ℚ) : corrNum h h = corrDev h := by
  unfold corrNum corrDev
  exact Finset.sum_congr rfl (fun _ _ => (pow_two (h _ - binMean h)).symm)

/-- Squared deviations are nonnegative. -/
theorem corrDev_nonneg (h : Nat → ℚ) : 0 ≤ corrDev h :=
  Finset.sum_nonneg (fun _ _ => sq_nonneg _)

/-- The histogram estimator scores two identical matrices exactly `1`:
either the normalized histogram has zero deviation and OpenCV's degenerate
branch yields a correlation of `1`, or the correlation is
`D / sqrt(D * D) = 1` for the positive deviation `D`. -/
theorem hist_similarity_self (m : Mat) : calculate_histogram_similarity m m = 1 := by
  unfold calculate_histogram_similarity
  have hr : compareHistCorrel (normHist m) (normHist m) = 1 := by
    unfold compareHistCorrel
    by_cases hd : corrDev (normHist m) * corrDev (normHist m) = 0
    · rw [if_pos hd]
    · rw [if_neg hd]
      have hD : corrDev (normHist m) ≠ 0 := fun h0 => hd (by rw [h0]; ring)
      have hcast : ((corrDev (normHist m) * corrDev (normHist m) : ℚ) : ℝ) =
          ((corrDev (normHist m) : ℚ) : ℝ) ^ 2 := by
        push_cast
        ring
      rw [corrNum_self, hcast,
        Real.sqrt_sq (by exact_mod_cast corrDev_nonneg (normHist m)), div_self]
      exact_mod_cast hD
  rw [hr]
  norm_num

/-- Claim C7: the histogram estimator returns the clamp to `[0, 1]` of
`(r + 1) / 2`, where `r` is the correlation coefficient of the two
normalized 256-bin intensity histograms, and for two identical matrices it
returns exactly `1.0`. -/
theorem claim_C7_histogram_similarity :
    (∀ a b : Mat, calculate_histogram_similarity a b =
        max 0 (min 1 ((compareHistCorrel (normHist a) (normHist b) + 1) / 2))) ∧
    (∀ m : Mat, calculate_histogram_similarity m m = 1) :=
  ⟨fun _ _ => rfl, hist_similarity_self⟩

/-- The pixel estimator scores two identical matrices exactly `1`: the
shapes match, so no resize happens, and the mean absolute difference is
zero. -/
theorem pixel_similarity_self (resizeMat : Mat → Nat × Nat → Mat) (m : Mat) :
    calculate_pixel_similarity resizeMat m m = 1 := by
  have hz : absdiffMean m m = 0 := by
    unfold absdiffMean
    rw [Finset.sum_eq_zero, zero_div]
    intro rc _
    simp
  have he : calculate_pixel_similarity resizeMat m m = max 0 (1 - absdiffMean m m / 255) := by
    simp [calculate_pixel_similarity]
  rw [he, hz]
  norm_num

/-- The mean absolute difference is nonnegative. -/
theorem absdiffMean_nonneg (x y : Mat) : 0 ≤ absdiffMean x y := by
  unfold absdiffMean
  exact div_nonneg (Finset.sum_nonneg (fun _ _ => Nat.cast_nonneg _)) (Nat.cast_nonneg _)

/-- Claim C8: the pixel-difference estimator keeps equal-shape matrices as
they are and resizes differing-shape matrices to the minimum common height
and width (the `cv2.resize` target being `(width, height)`), returns
`max(0, 1 - mean(absdiff) / 255)` of the pair it actually compares, and its
result always lies in `[0, 1]`.  `hres` is the `cv2.resize` guarantee of
honoring the requested target; the positivity hypotheses restrict the claim
to genuine (nonempty) images. -/
theorem claim_C8_pixel_similarity (resizeMat : Mat → Nat × Nat → Mat) (a b : Mat)
    (hres : ∀ m wh, (resizeMat m wh).rows = wh.2 ∧ (resizeMat m wh).cols = wh.1)
    (_ha : 0 < a.rows ∧ 0 < a.cols) (_hb : 0 < b.rows ∧ 0 < b.cols) :
    (0 ≤ calculate_pixel_similarity resizeMat a b ∧
      calculate_pixel_similarity resizeMat a b ≤ 1) ∧
    ((a.rows, a.cols) = (b.rows, b.cols) →
      calculate_pixel_similarity resizeMat a b = max 0 (1 - absdiffMean a b / 255)) ∧
    ((a.rows, a.cols) ≠ (b.rows, b.cols) →
      calculate_pixel_similarity resizeMat a b =
        max 0 (1 - absdiffMean
            (resizeMat a (min a.cols b.cols, min a.rows b.rows))
            (resizeMat b (min a.cols b.cols, min a.rows b.rows)) / 255) ∧
      (resizeMat a (min a.cols b.cols, min a.rows b.rows)).rows = min a.rows b.rows ∧
      (resizeMat a (min a.cols b.cols, min a.rows b.rows)).cols = min a.cols b.cols ∧
      (resizeMat b (min a.cols b.cols, min a.rows b.rows)).rows = min a.rows b.rows ∧
      (resizeMat b (min a.cols b.cols, min a.rows b.rows)).cols = min a.cols b.cols) := by
  have hbound : ∀ x y : Mat,
      0 ≤ max 0 (1 - absdiffMean x y / 255) ∧ max 0 (1 - absdiffMean x y / 255) ≤ 1 := by
    intro x y
    refine ⟨le_max_left 0 _, max_le (by norm_num) ?_⟩
    have h0 : 0 ≤ absdiffMean x y / 255 := div_nonneg (absdiffMean_nonneg x y) (by norm_num)
    linarith
  by_cases hc : (a.rows, a.cols) = (b.rows, b.cols)
  · have he : calculate_pixel_similarity resizeMat a b = max 0 (1 - absdiffMean a b / 255) := by
      simp only [calculate_pixel_similarity]
      rw [if_pos hc]
    rw [he]
    exact ⟨hbound a b, fun _ => rfl, fun hne => absurd hc hne⟩
  · have he : calculate_pixel_similarity resizeMat a b =
        max 0 (1 - absdiffMean
            (resizeMat a (min a.cols b.cols, min a.rows b.rows))
            (resizeMat b (min a.cols b.cols, min a.rows b.rows)) / 255) := by
      simp only [calculate_pixel_similarity]
      rw [if_neg hc]
    rw [he]
    obtain ⟨h1r, h1c⟩ := hres a (min a.cols b.cols, min a.rows b.rows)
    obtain ⟨h2r, h2c⟩ := hres b (min a.cols b.cols, min a.rows b.rows)
    exact ⟨hbound _ _, fun hcc => absurd hcc hc, fun _ => ⟨rfl, h1r, h1c, h2r, h2c⟩⟩

/-- A concrete 1×2 matrix of intensity 10. -/
def matA : Mat := ⟨1, 2, fun _ _ => 10⟩

/-- A concrete 2×1 matrix of intensity 20. -/
def matB : Mat := ⟨2, 1, fun _ _ => 20⟩

/-- Witness for claim C8 at two concrete matrices of different shapes and a
resize capability honoring its target. -/
theorem claim_C8_witness :
    (0 ≤ calculate_pixel_similarity resizeMatW matA matB ∧
      calculate_pixel_similarity resizeMatW matA matB ≤ 1) ∧
    calculate_pixel_similarity resizeMatW matA matB =
      max 0 (1 - absdiffMean
          (resizeMatW matA (min matA.cols matB.cols, min matA.rows matB.rows))
          (resizeMatW matB (min matA.cols matB.cols, min matA.rows matB.rows)) / 255) := by
  have h := claim_C8_pixel_similarity resizeMatW matA matB
      (fun m wh => ⟨rfl, rfl⟩) (by decide) (by decide)
  exact ⟨h.1, (h.2.2 (by decide)).1⟩

/-- The mathematical bound on the structural-similarity index: whatever
numeric value the external SSIM routine yields (directly or as the first
element of a tuple) is at most `1`; the spec itself notes the index ranges
over `[-1, 1]`.  Errors and non-numeric values are unconstrained. -/
def ssimValBound : Except PyErr PyVal → Prop
  | .ok (.num q) => q ≤ 1
  | .ok (.seq (PyVal.num q :: _)) => q ≤ 1
  | _ => True

/-- Claim C9: given the mathematical upper bound on the SSIM index, the
structural-similarity estimator always returns a value in `[0, 1]`; any
failure of the external routine is caught at the estimator boundary and
mapped to `0.0`, and any nonpositive index value is clamped to `0`. -/
theorem claim_C9_ssim_bounded (ssimF : Mat → Mat → Except PyErr PyVal) (a b : Mat)
    (hbound : ssimValBound (ssimF a b)) :
    (0 ≤ calculate_ssim_similarity ssimF a b ∧
      calculate_ssim_similarity ssimF a b ≤ 1) ∧
    (∀ e, ssimF a b = .error e → calculate_ssim_similarity ssimF a b = 0) ∧
    (∀ q, ssimF a b = .ok (.num q) → q ≤ 0 →
      calculate_ssim_similarity ssimF a b = 0) := by
  revert hbound
  unfold calculate_ssim_similarity ssimTryBody
  generalize ssimF a b = r
  intro hbound
  cases r with
  | error e => simp
  | ok v =>
    cases v with
    | num q =>
      simp only [ssimValBound] at hbound
      simp only [pyFloat]
      refine ⟨⟨le_max_left 0 q, max_le (by norm_num) hbound⟩, by simp, ?_⟩
      intro q2 heq hq0
      have hqq : q = q2 := by
        injection heq with h1
        injection h1
      rw [← hqq] at hq0
      exact max_eq_left hq0
    | other => simp [pyFloat]
    | seq l =>
      cases l with
      | nil => simp [pyFloat]
      | cons v0 tail =>
        cases v0 with
        | num q =>
          simp only [ssimValBound] at hbound
          simp only [List.length_cons, Nat.succ_pos, if_true, List.headD_cons, pyFloat]
          exact ⟨⟨le_max_left 0 q, max_le (by norm_num) hbound⟩, by simp, by simp⟩
        | seq l2 => simp [pyFloat]
        | other => simp [pyFloat]

/-- A concrete SSIM capability scoring every pair `1/2`. -/
def ssimW : Mat → Mat → Except PyErr PyVal := fun _ _ => .ok (.num (1/2))

/-- Witness for claim C9 at the concrete SSIM capability `ssimW`. -/
theorem claim_C9_witness :
    (0 ≤ calculate_ssim_similarity ssimW matA matA ∧
      calculate_ssim_similarity ssimW matA matA ≤ 1) ∧
    (∀ e, ssimW matA matA = .error e → calculate_ssim_similarity ssimW matA matA = 0) ∧
    (∀ q, ssimW matA matA = .ok (.num q) → q ≤ 0 →
      calculate_ssim_similarity ssimW matA matA = 0) :=
  claim_C9_ssim_bounded ssimW matA matA (by norm_num [ssimValBound, ssimW])

/-- Evaluation of the intended pipeline: once the preprocessed pair and the
five estimator scores are known, `compare_images_spec` is the clamped
weighted sum. -/
theorem compare_images_spec_eval (env : ExternEnv) (a b : GrayImage) (M1 M2 : Mat)
    (hp : preprocess_images_for_comparison env.resizeImg a b = (M1, M2))
    (s h o t p : ℝ)
    (hs : ((calculate_ssim_similarity env.ssimF M1 M2 : ℚ) : ℝ) = s)
    (hh : calculate_histogram_similarity M1 M2 = h)
    (ho : ((calculate_orb_similarity env.detect M1 M2 : ℚ) : ℝ) = o)
    (ht : ((calculate_text_similarity env.ocrRun M1 M2 : ℚ) : ℝ) = t)
    (hpx : ((calculate_pixel_similarity env.resizeMat M1 M2 : ℚ) : ℝ) = p) :
    compare_images_spec env a b =
      max 0 (min 1 (s * 0.35 + h * 0.25 + o * 0.15 + t * 0.15 + p * 0.10)) := by
  simp only [compare_images_spec, hp]
  rw [← hs, ← hh, ← ho, ← ht, ← hpx]

/-- Claim C10 (evidence of the violation): at a concrete environment and a
concrete identical image pair, the actual `compare_images` returns `0`
because its `try:` block raises before any estimator runs, while the
spec-prescribed pipeline of five individually computed estimator scores
evaluates to the weighted sum `0.85`: the failure prevents every estimator
from running, and no weighted sum over remaining scores is returned. -/
theorem claim_C10_pipeline_never_runs :
    compare_images envW (uniformImage 2 2 128) (uniformImage 2 2 128) = 0 ∧
    compare_images_spec envW (uniformImage 2 2 128) (uniformImage 2 2 128) = 0.85 ∧
    ((compare_images envW (uniformImage 2 2 128) (uniformImage 2 2 128) : ℚ) : ℝ) ≠
      compare_images_spec envW (uniformImage 2 2 128) (uniformImage 2 2 128) := by
  have hp : preprocess_images_for_comparison envW.resizeImg
      (uniformImage 2 2 128) (uniformImage 2 2 128) =
      ((uniformImage 2 2 128).toMat, (uniformImage 2 2 128).toMat) := by
    simp [preprocess_images_for_comparison]
  have hssim : calculate_ssim_similarity envW.ssimF
      (uniformImage 2 2 128).toMat (uniformImage 2 2 128).toMat = 1 := by
    show max (0 : ℚ) 1 = 1
    exact max_eq_right zero_le_one
  have horb : calculate_orb_similarity envW.detect
      (uniformImage 2 2 128).toMat (uniformImage 2 2 128).toMat = 0 := rfl
  have htext : calculate_text_similarity envW.ocrRun
      (uniformImage 2 2 128).toMat (uniformImage 2 2 128).toMat = 1 := by
    show calculate_text_similarity_core "" "" = 1
    decide
  have hhist := hist_similarity_self (uniformImage 2 2 128).toMat
  have hpix := pixel_similarity_self envW.resizeMat (uniformImage 2 2 128).toMat
  have hspec : compare_images_spec envW (uniformImage 2 2 128) (uniformImage 2 2 128) =
      max 0 (min 1 ((1 : ℝ) * 0.35 + 1 * 0.25 + 0 * 0.15 + 1 * 0.15 + 1 * 0.10)) :=
    compare_images_spec_eval envW _ _ _ _ hp 1 1 0 1 1
      (by rw [hssim]; norm_num) hhist (by rw [horb]; norm_num)
      (by rw [htext]; norm_num) (by rw [hpix]; norm_num)
  have hval : max (0 : ℝ) (min 1 ((1 : ℝ) * 0.35 + 1 * 0.25 + 0 * 0.15 + 1 * 0.15 + 1 * 0.10))
      = 0.85 := by
    rw [show (1 : ℝ) * 0.35 + 1 * 0.25 + 0 * 0.15 + 1 * 0.15 + 1 * 0.10 = 0.85 by norm_num,
      min_eq_right (by norm_num : (0.85 : ℝ) ≤ 1),
      max_eq_right (by norm_num : (0 : ℝ) ≤ 0.85)]
  refine ⟨compare_images_eq_zero _ _ _, hspec.trans hval, ?_⟩
  rw [compare_images_eq_zero, hspec, hval]
  norm_num
